import Mathlib

/-!
# Verification of the Galaxy particle background (`GalaxyBackground` / `GalaxyParticle`)

Shallow embedding of the particle-field simulation of the portfolio page:
the `throttle` utility, the `GalaxyBackground` controller (init,
createParticles, drawConnections, bindEvents throttle windows) and the
`GalaxyParticle` entity (constructor, update, draw).

JavaScript numbers are modelled by `JSNum`: either a rational value or `nan`.
The only NaN source reachable in this program is the division `dx / distance`
in `GalaxyParticle.update` when `distance = 0` (JS `0/0 = NaN`); `NaN`
propagates through arithmetic and makes every `<` comparison false, exactly
as in JS.  `Math.sqrt` and `Math.sin` produce irrational values, so they are
passed to the embedded operations as parameters (`dist`, `sinVal`, `sqrtF`)
and theorems constrain them by their defining properties; likewise the
`Math.random()` draws of the particle constructor become explicit seed
parameters constrained to `[0, 1)`.
-/

/-- A JavaScript number as reachable by this program: a finite rational or NaN.
JS infinities are unreachable here (the only division with a possibly-zero
divisor is `dx / distance`, and `distance = 0` forces `dx = 0`, the `0/0 = NaN`
case), so they are not modelled. -/
inductive JSNum where
  | nan : JSNum
  | num : ℚ → JSNum
deriving DecidableEq, Inhabited

/-- JS addition: NaN propagates. -/
def JSNum.add : JSNum → JSNum → JSNum
  | num a, num b => num (a + b)
  | _, _ => nan

/-- JS subtraction: NaN propagates. -/
def JSNum.sub : JSNum → JSNum → JSNum
  | num a, num b => num (a - b)
  | _, _ => nan

/-- JS multiplication (finite operands): NaN propagates. -/
def JSNum.mul : JSNum → JSNum → JSNum
  | num a, num b => num (a * b)
  | _, _ => nan

/-- JS `x *= -1`. -/
def JSNum.neg : JSNum → JSNum
  | num a => num (-a)
  | nan => nan

/-- JS division restricted to the cases this program reaches: division by `0`
yields NaN (in the source the divisor `distance` is zero only when
`dx = dy = 0`, the JS `0/0 = NaN` case); NaN propagates. -/
def JSNum.div : JSNum → JSNum → JSNum
  | num a, num b => if b = 0 then nan else num (a / b)
  | _, _ => nan

/-- JS `<`: comparisons with NaN are false. -/
def JSNum.lt : JSNum → JSNum → Bool
  | num a, num b => decide (a < b)
  | _, _ => false

@[simp] theorem JSNum.add_num (a b : ℚ) : (JSNum.num a).add (JSNum.num b) = JSNum.num (a + b) := rfl

@[simp] theorem JSNum.sub_num (a b : ℚ) : (JSNum.num a).sub (JSNum.num b) = JSNum.num (a - b) := rfl

@[simp] theorem JSNum.mul_num (a b : ℚ) : (JSNum.num a).mul (JSNum.num b) = JSNum.num (a * b) := rfl

@[simp] theorem JSNum.neg_num (a : ℚ) : (JSNum.num a).neg = JSNum.num (-a) := rfl

@[simp] theorem JSNum.lt_num (a b : ℚ) : (JSNum.num a).lt (JSNum.num b) = decide (a < b) := rfl

@[simp] theorem JSNum.div_num (a b : ℚ) :
    (JSNum.num a).div (JSNum.num b) = if b = 0 then JSNum.nan else JSNum.num (a / b) := rfl

/-- The shared pointer state `this.mouse = { x: null, y: null }`: each
coordinate is `null` (`none`) or a number. -/
structure Mouse where
  x : Option ℚ
  y : Option ℚ
deriving DecidableEq, Inhabited

/-- One `GalaxyParticle`.  Position and velocity are JS numbers (they can be
poisoned by NaN through the pointer-interaction arithmetic); the pulse fields
and radii only ever hold finite values. -/
structure GalaxyParticle where
  x : JSNum
  y : JSNum
  radius : ℚ
  baseRadius : ℚ
  color : String
  speedX : JSNum
  speedY : JSNum
  pulsePhase : ℚ
  pulseSpeed : ℚ
deriving DecidableEq, Inhabited

/-- The ten-colour palette of the `GalaxyParticle` constructor. -/
def galaxyColors : List String :=
  ["#FFD700", "#FFA500", "#FF6347", "#FF69B4", "#00CED1",
   "#9370DB", "#32CD32", "#FF4500", "#1E90FF", "#FF1493"]

/-- One bundle of `Math.random()` draws consumed by the `GalaxyParticle`
constructor, each conceptually uniform in `[0, 1)`.  `phase` stands for the
already-multiplied draw `Math.random() * Math.PI * 2` (a multiple of the
irrational `π`, so the drawn phase itself is the parameter; the simulation
only ever feeds it to `Math.sin`, which is handled parametrically). -/
structure Seed where
  rx : ℚ
  ry : ℚ
  rr : ℚ
  rc : ℚ
  rsx : ℚ
  rsy : ℚ
  phase : ℚ
  rps : ℚ
deriving DecidableEq, Inhabited

/-- The constraint `Math.random() ∈ [0, 1)` on each draw (the phase draw is
unconstrained: it stands for `random * 2π`). -/
def Seed.Valid (s : Seed) : Prop :=
  0 ≤ s.rx ∧ s.rx < 1 ∧ 0 ≤ s.ry ∧ s.ry < 1 ∧ 0 ≤ s.rr ∧ s.rr < 1 ∧
  0 ≤ s.rc ∧ s.rc < 1 ∧ 0 ≤ s.rsx ∧ s.rsx < 1 ∧ 0 ≤ s.rsy ∧ s.rsy < 1 ∧
  0 ≤ s.rps ∧ s.rps < 1

instance (s : Seed) : Decidable s.Valid := by
  unfold Seed.Valid
  infer_instance

/-- The `GalaxyParticle(canvasWidth, canvasHeight)` constructor:
`x = random * canvasWidth`, `y = random * canvasHeight`,
`radius = random * 3 + 1`, `baseRadius = radius`, a palette colour at index
`floor(random * 10)`, `speedX/Y = (random - 0.5) * 0.5`,
`pulsePhase = random * π * 2` (passed as the drawn value),
`pulseSpeed = 0.02 + random * 0.03`. -/
def GalaxyParticle.create (canvasWidth canvasHeight : ℚ) (s : Seed) : GalaxyParticle :=
  { x := JSNum.num (s.rx * canvasWidth)
    y := JSNum.num (s.ry * canvasHeight)
    radius := s.rr * 3 + 1
    baseRadius := s.rr * 3 + 1
    color := galaxyColors.getD (Nat.floor (s.rc * 10)) ""
    speedX := JSNum.num ((s.rsx - 1/2) * (1/2))
    speedY := JSNum.num ((s.rsy - 1/2) * (1/2))
    pulsePhase := s.phase
    pulseSpeed := 1/50 + s.rps * (3/100) }

/-- `GalaxyParticle.update(mouse, canvasWidth, canvasHeight)`.
`dist` is the value of `Math.sqrt(dx*dx + dy*dy)` (a parameter because square
roots of rationals are irrational; theorems constrain it by `dist ≥ 0` and
`dist² = dx² + dy²`), and `sinVal` the value of `Math.sin(this.pulsePhase)`
after the phase advance (constrained by `-1 ≤ sinVal ≤ 1`).  Order of
operations follows the source: move, bounce off edges (velocity sign flip on
the post-move position), mouse interaction on the post-move position, pulse. -/
def GalaxyParticle.update (p : GalaxyParticle) (mouse : Mouse)
    (canvasWidth canvasHeight : ℚ) (dist : JSNum) (sinVal : ℚ) : GalaxyParticle :=
  let x1 := p.x.add p.speedX
  let y1 := p.y.add p.speedY
  let speedX1 := if x1.lt (JSNum.num 0) || (JSNum.num canvasWidth).lt x1 then p.speedX.neg else p.speedX
  let speedY1 := if y1.lt (JSNum.num 0) || (JSNum.num canvasHeight).lt y1 then p.speedY.neg else p.speedY
  let xy :=
    match mouse.x, mouse.y with
    | some mx, some my =>
      let dx := (JSNum.num mx).sub x1
      let dy := (JSNum.num my).sub y1
      if dist.lt (JSNum.num 200) then
        let force := ((JSNum.num 200).sub dist).div (JSNum.num 200)
        (x1.add (((dx.div dist).mul force).mul (JSNum.num 2)),
         y1.add (((dy.div dist).mul force).mul (JSNum.num 2)))
      else (x1, y1)
    | _, _ => (x1, y1)
  { p with
    x := xy.1
    y := xy.2
    speedX := speedX1
    speedY := speedY1
    pulsePhase := p.pulsePhase + p.pulseSpeed
    radius := p.baseRadius + sinVal * 1 }

/-- The three `ctx.arc` radii of `GalaxyParticle.draw(ctx)`, in draw order:
outer glow `radius * 3`, main particle `radius`, inner core `radius * 0.3`. -/
def GalaxyParticle.draw (p : GalaxyParticle) : List ℚ :=
  [p.radius * 3, p.radius, p.radius * (3/10)]

/-- `this.numParticles = 200`. -/
def GalaxyBackground.numParticles : Nat := 200

/-- `GalaxyBackground.createParticles()`: replace the whole collection with
`numParticles` fresh particles for the current canvas dimensions.  The i-th
particle consumes the i-th bundle of random draws. -/
def GalaxyBackground.createParticles (canvasWidth canvasHeight : ℚ)
    (seeds : Nat → Seed) : List GalaxyParticle :=
  (List.range GalaxyBackground.numParticles).map fun i =>
    GalaxyParticle.create canvasWidth canvasHeight (seeds i)

/-- Observable outcome of `GalaxyBackground` construction + `init()`:
which particles exist, whether an animation frame was scheduled
(`animate()` / `requestAnimationFrame`), which listeners `bindEvents()`
bound, and whether the `console.error` diagnostic was emitted. -/
structure InitResult where
  particles : List GalaxyParticle
  frameScheduled : Bool
  resizeListenerBound : Bool
  mousemoveListenerBound : Bool
  mouseleaveListenerBound : Bool
  errorLogged : Bool
deriving DecidableEq

/-- `GalaxyBackground.init()`: if `document.getElementById(containerId)`
resolved to no canvas (`canvas = none`), log the diagnostic and return
before creating particles, binding events or starting the loop; otherwise
size the canvas (dimensions `w × h`), create the particles, bind the three
listeners and schedule the animation loop. -/
def GalaxyBackground.init (canvas : Option (ℚ × ℚ)) (seeds : Nat → Seed) : InitResult :=
  match canvas with
  | none =>
    { particles := []
      frameScheduled := false
      resizeListenerBound := false
      mousemoveListenerBound := false
      mouseleaveListenerBound := false
      errorLogged := true }
  | some (w, h) =>
    { particles := GalaxyBackground.createParticles w h seeds
      frameScheduled := true
      resizeListenerBound := true
      mousemoveListenerBound := true
      mouseleaveListenerBound := true
      errorLogged := false }

/-- `dx*dx + dy*dy` for a pair of particles, as computed inside
`drawConnections` before the square root. -/
def squaredDist (p q : GalaxyParticle) : JSNum :=
  ((p.x.sub q.x).mul (p.x.sub q.x)).add ((p.y.sub q.y).mul (p.y.sub q.y))

/-- The connection-line opacity `(1 - distance / 150) * 0.3` of
`drawConnections`, as a function of the distance. -/
def connectionOpacity (distance : ℚ) : ℚ := (1 - distance / 150) * (3/10)

/-- `GalaxyBackground.drawConnections()`: for every pair `i < j`, compute the
Euclidean distance (`sqrtF` stands for `Math.sqrt`) and stroke a line with
opacity `(1 - distance/150) * 0.3` when `distance < 150`.  The result lists
the stroked pairs with their opacities, in loop order. -/
def GalaxyBackground.drawConnections (particles : List GalaxyParticle)
    (sqrtF : JSNum → JSNum) : List (Nat × Nat × JSNum) :=
  (List.range particles.length).flatMap fun i =>
    ((List.range particles.length).filter fun j => decide (i < j)).filterMap fun j =>
      let pi := particles.getD i default
      let pj := particles.getD j default
      let distance := sqrtF (squaredDist pi pj)
      if distance.lt (JSNum.num 150) then
        some (i, j, ((JSNum.num 1).sub (distance.div (JSNum.num 150))).mul (JSNum.num (3/10)))
      else none

/-- The throttle window of the resize listener in
`GalaxyBackground.bindEvents()` (milliseconds). -/
def GalaxyBackground.resizeThrottleMs : ℚ := 250

/-- The throttle window of the mousemove listener in
`GalaxyBackground.bindEvents()` (milliseconds). -/
def GalaxyBackground.mousemoveThrottleMs : ℚ := 16

/-- State of one closure returned by `throttle(func, limit)`: the pending
`setTimeout` deadline while `inThrottle` is set (none once it has fired), and
the arguments of the calls that were passed through to `func`, in order. -/
structure ThrottleState (α : Type) where
  blockedUntil : Option ℚ
  calls : List α
deriving DecidableEq

/-- One invocation of the throttled closure at time `ev.1` with argument
`ev.2`: if `inThrottle` is clear (never set, or the `setTimeout(limit)` from
the last executed call has fired by now), call `func` with these arguments
and re-arm the timer; otherwise drop the invocation entirely. -/
def throttleStep {α : Type} (limit : ℚ) (st : ThrottleState α) (ev : ℚ × α) : ThrottleState α :=
  match st.blockedUntil with
  | none => { blockedUntil := some (ev.1 + limit), calls := st.calls ++ [ev.2] }
  | some e =>
    if e ≤ ev.1 then { blockedUntil := some (ev.1 + limit), calls := st.calls ++ [ev.2] }
    else st

/-- Run a throttled closure over a whole timestamped invocation trace. -/
def throttleRun {α : Type} (limit : ℚ) (evs : List (ℚ × α)) : ThrottleState α :=
  evs.foldl (throttleStep limit) { blockedUntil := none, calls := [] }

/-- Leading-edge selection: the invocation that opens each window executes
with its own argument; invocations inside an open window are discarded. -/
def leadingEdge {α : Type} (limit : ℚ) : List (ℚ × α) → Option ℚ → List α
  | [], _ => []
  | ev :: rest, none => ev.2 :: leadingEdge limit rest (some (ev.1 + limit))
  | ev :: rest, some e =>
    if e ≤ ev.1 then ev.2 :: leadingEdge limit rest (some (ev.1 + limit))
    else leadingEdge limit rest (some e)

/-- `n` consecutive `GalaxyParticle.update` steps against a fixed pointer
state and canvas; `dists i` and `sins i` are the `Math.sqrt` / `Math.sin`
values consumed by step `i`. -/
def GalaxyParticle.updateIter (mouse : Mouse) (canvasWidth canvasHeight : ℚ)
    (dists : Nat → JSNum) (sins : Nat → ℚ) : Nat → GalaxyParticle → GalaxyParticle
  | 0, p => p
  | n + 1, p =>
    (GalaxyParticle.updateIter mouse canvasWidth canvasHeight dists sins n p).update
      mouse canvasWidth canvasHeight (dists n) (sins n)

/-- One axis of the move + bounce part of `GalaxyParticle.update` on finite
values: the new position and the possibly sign-flipped speed. -/
def bounceAxis (w x s : ℚ) : ℚ × ℚ :=
  let x1 := x + s
  (x1, if x1 < 0 ∨ w < x1 then -s else s)

/-- Invariant of the bounce dynamics on one axis: either the position is
inside `[0, w]`, or it overshot below `0` and the (already flipped) speed is
positive and large enough to re-enter next step, or symmetrically above `w`. -/
def AxisInv (w x s : ℚ) : Prop :=
  (0 ≤ x ∧ x ≤ w) ∨ (x < 0 ∧ 0 < s ∧ -s ≤ x) ∨ (w < x ∧ s < 0 ∧ x ≤ w - s)

/-- The concrete particle of the pointer-coincidence scenario: at rest at
`(50, 60)` with zero velocity. -/
def c1Particle : GalaxyParticle :=
  { x := JSNum.num 50
    y := JSNum.num 60
    radius := 2
    baseRadius := 2
    color := "#FFD700"
    speedX := JSNum.num 0
    speedY := JSNum.num 0
    pulsePhase := 0
    pulseSpeed := 1/50 }

/-- C1: with the pointer exactly coincident with the particle's position the
source has no `distance == 0` guard: `distance = Math.sqrt(0) = 0 < 200`, so
it computes `dx / distance = 0 / 0 = NaN` and adds it to the position — the
call returns normally but both coordinates become NaN instead of being left
unchanged.  (The supplied `dist` value `0` is the exact square root of
`dx² + dy² = 0`.) -/
theorem galaxy_c1_pointer_coincident_nan :
    (c1Particle.update { x := some 50, y := some 60 } 800 600 (JSNum.num 0) 0).x = JSNum.nan ∧
    (c1Particle.update { x := some 50, y := some 60 } 800 600 (JSNum.num 0) 0).y = JSNum.nan ∧
    c1Particle.x = JSNum.num 50 ∧ c1Particle.y = JSNum.num 60 := by
  decide

/-- C8: when the render-surface handle is unresolvable (`canvas = none`),
`init()` logs the diagnostic and returns early: no particles are created, no
frame is scheduled, and none of the three listeners is bound. -/
theorem galaxy_c8_init_abort (seeds : Nat → Seed) :
    (GalaxyBackground.init none seeds).particles = [] ∧
    (GalaxyBackground.init none seeds).frameScheduled = false ∧
    (GalaxyBackground.init none seeds).resizeListenerBound = false ∧
    (GalaxyBackground.init none seeds).mousemoveListenerBound = false ∧
    (GalaxyBackground.init none seeds).mouseleaveListenerBound = false ∧
    (GalaxyBackground.init none seeds).errorLogged = true :=
  ⟨rfl, rfl, rfl, rfl, rfl, rfl⟩

/-- C9: one `update` call, for every pointer state, surface size and
`sqrt`/`sin` values, leaves `color`, `baseRadius` and `pulseSpeed` untouched,
changes each velocity component at most by a sign flip (so the magnitudes are
preserved), advances `pulsePhase` by exactly `pulseSpeed`, and recomputes
`radius` as `baseRadius + sin(pulsePhase) * 1`. -/
theorem galaxy_c9_frame_effect (p : GalaxyParticle) (mouse : Mouse) (w h : ℚ)
    (dist : JSNum) (sinVal : ℚ) :
    ((p.update mouse w h dist sinVal).color = p.color) ∧
    ((p.update mouse w h dist sinVal).baseRadius = p.baseRadius) ∧
    ((p.update mouse w h dist sinVal).pulseSpeed = p.pulseSpeed) ∧
    ((p.update mouse w h dist sinVal).speedX = p.speedX ∨
      (p.update mouse w h dist sinVal).speedX = p.speedX.neg) ∧
    ((p.update mouse w h dist sinVal).speedY = p.speedY ∨
      (p.update mouse w h dist sinVal).speedY = p.speedY.neg) ∧
    ((p.update mouse w h dist sinVal).pulsePhase = p.pulsePhase + p.pulseSpeed) ∧
    ((p.update mouse w h dist sinVal).radius = p.baseRadius + sinVal * 1) := by
  unfold GalaxyParticle.update
  refine ⟨rfl, rfl, rfl, ?_, ?_, rfl, rfl⟩ <;> dsimp only <;> split_ifs <;> simp

/-- Unfolding lemma for a `foldl` of `throttleStep`: the executed calls are
the accumulated ones followed by the leading-edge selection of the remaining
trace relative to the current timer. -/
theorem throttleRun_foldl {α : Type} (limit : ℚ) (evs : List (ℚ × α)) :
    ∀ st : ThrottleState α,
      (evs.foldl (throttleStep limit) st).calls =
        st.calls ++ leadingEdge limit evs st.blockedUntil := by
  induction evs with
  | nil => intro st; simp [leadingEdge]
  | cons ev rest ih =>
    intro st
    cases h : st.blockedUntil with
    | none => simp [List.foldl_cons, throttleStep, h, leadingEdge, ih]
    | some e =>
      by_cases he : e ≤ ev.1
      · simp [List.foldl_cons, throttleStep, h, he, leadingEdge, ih]
      · simp [List.foldl_cons, throttleStep, h, he, leadingEdge, ih]

/-- C3 (amended): the `throttle` wrapper used for the resize handler (250ms)
and the pointer-move handler (16ms) implements leading-edge throttling:
excess invocations inside a window are dropped outright, never queued, and
each executed call carries the arguments of the invocation that opened its
window; inputs arriving during an open window are discarded. -/
theorem throttle_c3_leading_edge {α : Type} (evs : List (ℚ × α)) :
    (throttleRun GalaxyBackground.resizeThrottleMs evs).calls =
      leadingEdge GalaxyBackground.resizeThrottleMs evs none ∧
    (throttleRun GalaxyBackground.mousemoveThrottleMs evs).calls =
      leadingEdge GalaxyBackground.mousemoveThrottleMs evs none := by
  constructor <;> exact (throttleRun_foldl _ evs _).trans (by simp)

/-- C3 counterexample: pointer-move invocations at t=0 (input `1`) and t=5
(input `2`) inside one 16ms window: the t=5 invocation is dropped, so the
stored state at the end of the window is `1`, not the most recent input `2`
received during that window. -/
theorem throttle_c3_counterexample :
    (throttleRun GalaxyBackground.mousemoveThrottleMs
        [((0:ℚ), (1:ℚ)), ((5:ℚ), (2:ℚ))]).calls = [1] ∧
    (throttleRun GalaxyBackground.mousemoveThrottleMs
        [((0:ℚ), (1:ℚ)), ((5:ℚ), (2:ℚ))]).calls.getLast? ≠ some 2 := by
  norm_num [throttleRun, throttleStep, GalaxyBackground.mousemoveThrottleMs]

/-- With a null pointer, `update` on numeric components acts as `bounceAxis`
independently on each axis (move, then velocity sign flip on crossing). -/
theorem update_mouseNone (p : GalaxyParticle) (w h : ℚ) (d : JSNum) (s : ℚ)
    (qx sx qy sy : ℚ) (hx : p.x = JSNum.num qx) (hsx : p.speedX = JSNum.num sx)
    (hy : p.y = JSNum.num qy) (hsy : p.speedY = JSNum.num sy) :
    (p.update { x := none, y := none } w h d s).x = JSNum.num (bounceAxis w qx sx).1 ∧
    (p.update { x := none, y := none } w h d s).speedX = JSNum.num (bounceAxis w qx sx).2 ∧
    (p.update { x := none, y := none } w h d s).y = JSNum.num (bounceAxis h qy sy).1 ∧
    (p.update { x := none, y := none } w h d s).speedY = JSNum.num (bounceAxis h qy sy).2 := by
  refine ⟨?_, ?_, ?_, ?_⟩ <;>
    · unfold GalaxyParticle.update bounceAxis
      simp only [hx, hsx, hy, hsy, JSNum.add_num, JSNum.lt_num, JSNum.neg_num,
        Bool.or_eq_true, decide_eq_true_eq, apply_ite JSNum.num]

/-- With a numeric pointer at true Euclidean distance `0 < d < 200` from the
post-move position, `update` adds `(dx / d) * ((200 - d) / 200) * 2` to each
position coordinate (`dx` pointing from the particle toward the pointer). -/
theorem update_mouseSome (p : GalaxyParticle) (w h : ℚ) (mx my d : ℚ) (s : ℚ)
    (qx sx qy sy : ℚ) (hx : p.x = JSNum.num qx) (hsx : p.speedX = JSNum.num sx)
    (hy : p.y = JSNum.num qy) (hsy : p.speedY = JSNum.num sy)
    (hd0 : 0 < d) (hd200 : d < 200) :
    (p.update { x := some mx, y := some my } w h (JSNum.num d) s).x
      = JSNum.num ((qx + sx) + (mx - (qx + sx)) / d * ((200 - d) / 200) * 2) ∧
    (p.update { x := some mx, y := some my } w h (JSNum.num d) s).y
      = JSNum.num ((qy + sy) + (my - (qy + sy)) / d * ((200 - d) / 200) * 2) := by
  constructor <;>
    · unfold GalaxyParticle.update
      simp [hx, hsx, hy, hsy, hd0.ne', hd200]

/-- C4: from `x = surfaceWidth - 0.1`, `speedX = 0.5`, pointer null, one
update yields `x = surfaceWidth + 0.4` with `speedX` flipped to `-0.5`, and
the next update moves `x` back to `surfaceWidth - 0.1` (inside `[0, w]`):
overshoot-then-reflect, no clamping. -/
theorem galaxy_c4_boundary_reflection (w h qy sy : ℚ) (hw : 1/10 ≤ w)
    (p : GalaxyParticle) (hx : p.x = JSNum.num (w - 1/10)) (hsx : p.speedX = JSNum.num (1/2))
    (hy : p.y = JSNum.num qy) (hsy : p.speedY = JSNum.num sy)
    (d1 d2 : JSNum) (s1 s2 : ℚ) :
    ((p.update { x := none, y := none } w h d1 s1).x = JSNum.num (w + 2/5)) ∧
    ((p.update { x := none, y := none } w h d1 s1).speedX = JSNum.num (-(1/2))) ∧
    (((p.update { x := none, y := none } w h d1 s1).update { x := none, y := none } w h d2 s2).x
      = JSNum.num (w - 1/10)) ∧
    (((p.update { x := none, y := none } w h d1 s1).update { x := none, y := none } w h d2 s2).speedX
      = JSNum.num (-(1/2))) ∧
    (w - 1/10 < w + 2/5 ∧ 0 ≤ w - 1/10 ∧ w - 1/10 ≤ w) := by
  have hb1 : bounceAxis w (w - 1/10) (1/2) = (w + 2/5, -(1/2)) := by
    simp only [bounceAxis]
    rw [if_pos (Or.inr (by linarith))]
    simp only [Prod.mk.injEq]
    constructor
    · ring
    · trivial
  have hb2 : bounceAxis w (w + 2/5) (-(1/2)) = (w - 1/10, -(1/2)) := by
    simp only [bounceAxis]
    rw [if_neg (by push_neg; constructor <;> linarith)]
    simp only [Prod.mk.injEq]
    constructor
    · ring
    · trivial
  obtain ⟨h1x, h1sx, h1y, h1sy⟩ := update_mouseNone p w h d1 s1 (w - 1/10) (1/2) qy sy hx hsx hy hsy
  rw [hb1] at h1x h1sx
  obtain ⟨h2x, h2sx, h2y, h2sy⟩ := update_mouseNone (p.update { x := none, y := none } w h d1 s1)
    w h d2 s2 (w + 2/5) (-(1/2)) (bounceAxis h qy sy).1 (bounceAxis h qy sy).2 h1x h1sx h1y h1sy
  rw [hb2] at h2x h2sx
  exact ⟨h1x, h1sx, h2x, h2sx, by linarith, by linarith, by linarith⟩

/-- Concrete instance of the C4 scenario on an 800 x 600 surface. -/
def c4Particle : GalaxyParticle :=
  { x := JSNum.num (800 - 1/10)
    y := JSNum.num 300
    radius := 2
    baseRadius := 2
    color := "#FFA500"
    speedX := JSNum.num (1/2)
    speedY := JSNum.num 0
    pulsePhase := 0
    pulseSpeed := 1/50 }

/-- C4 witness: the boundary-reflection theorem evaluated on the concrete
800 x 600 instance. -/
theorem galaxy_c4_witness :
    ((c4Particle.update { x := none, y := none } 800 600 JSNum.nan 0).x = JSNum.num (800 + 2/5)) ∧
    ((c4Particle.update { x := none, y := none } 800 600 JSNum.nan 0).speedX = JSNum.num (-(1/2))) ∧
    (((c4Particle.update { x := none, y := none } 800 600 JSNum.nan 0).update
        { x := none, y := none } 800 600 JSNum.nan 0).x = JSNum.num (800 - 1/10)) ∧
    (((c4Particle.update { x := none, y := none } 800 600 JSNum.nan 0).update
        { x := none, y := none } 800 600 JSNum.nan 0).speedX = JSNum.num (-(1/2))) ∧
    ((800:ℚ) - 1/10 < 800 + 2/5 ∧ 0 ≤ (800:ℚ) - 1/10 ∧ (800:ℚ) - 1/10 ≤ 800) :=
  galaxy_c4_boundary_reflection 800 600 300 0 (by norm_num) c4Particle rfl rfl rfl rfl
    JSNum.nan JSNum.nan 0 0

/-- C2 (amended): the pointer-interaction term moves the particle TOWARD the
pointer, not away: the displacement `(dx/d) * ((200-d)/200) * 2` points along
the pointer direction, and the new Euclidean distance to the pointer equals
`|d - 2*(200-d)/200|`; the distance does not increase exactly when
`d >= 200/201` (for smaller `d` the particle overshoots past the pointer). -/
theorem galaxy_c2_attraction (p : GalaxyParticle) (w h mx my qx qy sx sy d : ℚ) (sinVal : ℚ)
    (hx : p.x = JSNum.num qx) (hy : p.y = JSNum.num qy)
    (hsx : p.speedX = JSNum.num sx) (hsy : p.speedY = JSNum.num sy)
    (hd0 : 0 < d) (hd200 : d < 200)
    (hdsq : d * d = (mx - (qx + sx)) * (mx - (qx + sx)) + (my - (qy + sy)) * (my - (qy + sy))) :
    ∃ nx ny : ℚ,
      (p.update { x := some mx, y := some my } w h (JSNum.num d) sinVal).x = JSNum.num nx ∧
      (p.update { x := some mx, y := some my } w h (JSNum.num d) sinVal).y = JSNum.num ny ∧
      (nx - mx) * (nx - mx) + (ny - my) * (ny - my)
        = (d - 2 * ((200 - d) / 200)) * (d - 2 * ((200 - d) / 200)) ∧
      (200 / 201 ≤ d → (nx - mx) * (nx - mx) + (ny - my) * (ny - my) ≤ d * d) := by
  obtain ⟨hux, huy⟩ := update_mouseSome p w h mx my d sinVal qx sx qy sy hx hsx hy hsy hd0 hd200
  have heq : ((qx + sx) + (mx - (qx + sx)) / d * ((200 - d) / 200) * 2 - mx)
        * ((qx + sx) + (mx - (qx + sx)) / d * ((200 - d) / 200) * 2 - mx)
      + ((qy + sy) + (my - (qy + sy)) / d * ((200 - d) / 200) * 2 - my)
        * ((qy + sy) + (my - (qy + sy)) / d * ((200 - d) / 200) * 2 - my)
      = (d - 2 * ((200 - d) / 200)) * (d - 2 * ((200 - d) / 200)) := by
    have hd : d ≠ 0 := hd0.ne'
    field_simp
    nlinarith [hdsq]
  refine ⟨(qx + sx) + (mx - (qx + sx)) / d * ((200 - d) / 200) * 2,
    (qy + sy) + (my - (qy + sy)) / d * ((200 - d) / 200) * 2, hux, huy, heq, fun h201 => ?_⟩
  rw [heq]
  have hf1 : 0 ≤ (200 - d) / 200 := div_nonneg (by linarith) (by norm_num)
  have hf2 : (200 - d) / 200 ≤ d := by
    rw [div_le_iff₀ (by norm_num : (0:ℚ) < 200)]
    linarith
  nlinarith [mul_nonneg hf1 (by linarith : (0:ℚ) ≤ d - (200 - d) / 200)]

/-- A particle at rest at the origin, used for the C2 scenario. -/
def c2Particle : GalaxyParticle :=
  { x := JSNum.num 0
    y := JSNum.num 0
    radius := 2
    baseRadius := 2
    color := "#FF6347"
    speedX := JSNum.num 0
    speedY := JSNum.num 0
    pulsePhase := 0
    pulseSpeed := 1/50 }

/-- C2 counterexample: particle at the origin, pointer at `(100, 0)` (exact
Euclidean distance `100 < 200`).  The term moves the particle to `(1, 0)`:
the squared distance to the pointer drops from `100²` to `99²`, strictly
SMALLER than before — the claim says it must not be smaller. -/
theorem galaxy_c2_counterexample :
    ((c2Particle.update { x := some 100, y := some 0 } 800 600 (JSNum.num 100) 0).x
      = JSNum.num 1) ∧
    ((c2Particle.update { x := some 100, y := some 0 } 800 600 (JSNum.num 100) 0).y
      = JSNum.num 0) ∧
    ((100:ℚ) * 100 = (100 - (0 + 0)) * (100 - (0 + 0)) + (0 - (0 + 0)) * (0 - (0 + 0))) ∧
    ((100 - 1) * (100 - 1) + (0 - 0) * (0 - 0) < (100:ℚ) * 100) := by
  refine ⟨?_, ?_, by norm_num, by norm_num⟩ <;>
    · simp only [GalaxyParticle.update, c2Particle, JSNum.add_num, JSNum.sub_num, JSNum.lt_num,
        JSNum.div_num, JSNum.mul_num]
      norm_num

/-- C2 witness: the amended attraction theorem evaluated on the concrete
origin/pointer-at-(100,0) instance. -/
theorem galaxy_c2_witness :
    (0:ℚ) < 100 ∧ (100:ℚ) < 200 ∧
    ∃ nx ny : ℚ,
      (c2Particle.update { x := some 100, y := some 0 } 800 600 (JSNum.num 100) 0).x = JSNum.num nx ∧
      (c2Particle.update { x := some 100, y := some 0 } 800 600 (JSNum.num 100) 0).y = JSNum.num ny ∧
      (nx - 100) * (nx - 100) + (ny - 0) * (ny - 0)
        = (100 - 2 * ((200 - 100) / 200)) * (100 - 2 * ((200 - 100) / 200)) ∧
      (200 / 201 ≤ (100:ℚ) →
        (nx - 100) * (nx - 100) + (ny - 0) * (ny - 0) ≤ (100:ℚ) * 100) :=
  ⟨by norm_num, by norm_num,
    galaxy_c2_attraction c2Particle 800 600 100 0 0 0 0 0 100 0 rfl rfl rfl rfl
      (by norm_num) (by norm_num) (by norm_num)⟩

/-- One move+bounce step preserves the axis invariant and the speed
magnitude, provided the speed magnitude does not exceed the axis length. -/
theorem bounceAxis_inv (w x s : ℚ) (hsw : |s| ≤ w) (h : AxisInv w x s) :
    AxisInv w (bounceAxis w x s).1 (bounceAxis w x s).2 ∧ |(bounceAxis w x s).2| = |s| := by
  obtain ⟨hsl, hsr⟩ := abs_le.mp hsw
  constructor
  · simp only [bounceAxis]
    split_ifs with hcross
    · rcases hcross with hlo | hhi
      · rcases h with ⟨h1, h2⟩ | ⟨h1, h2, h3⟩ | ⟨h1, h2, h3⟩
        · exact Or.inr (Or.inl ⟨hlo, by linarith, by linarith⟩)
        · linarith
        · linarith
      · rcases h with ⟨h1, h2⟩ | ⟨h1, h2, h3⟩ | ⟨h1, h2, h3⟩
        · exact Or.inr (Or.inr ⟨hhi, by linarith, by linarith⟩)
        · linarith
        · linarith
    · push_neg at hcross
      exact Or.inl ⟨hcross.1, hcross.2⟩
  · simp only [bounceAxis]
    split_ifs <;> simp [abs_neg]

/-- The axis invariant confines the position to
`[-|speed|, axisLength + |speed|]`. -/
theorem axisInv_bounds (w x s : ℚ) (hw : 0 ≤ w) (h : AxisInv w x s) :
    -|s| ≤ x ∧ x ≤ w + |s| := by
  have h1 := le_abs_self s
  have h2 := neg_abs_le s
  have h3 := abs_nonneg s
  rcases h with ⟨ha, hb⟩ | ⟨ha, hb, hc⟩ | ⟨ha, hb, hc⟩ <;> constructor <;> linarith

/-- Iterating `update` with a null pointer keeps numeric components, the
per-axis invariants, and the speed magnitudes, for any number of steps. -/
theorem c5_iter_inv (w h : ℚ)
    (dists : Nat → JSNum) (sins : Nat → ℚ) (qx sx qy sy : ℚ)
    (hsxw : |sx| ≤ w) (hsyh : |sy| ≤ h)
    (hix : AxisInv w qx sx) (hiy : AxisInv h qy sy)
    (p : GalaxyParticle) (hx : p.x = JSNum.num qx) (hsx : p.speedX = JSNum.num sx)
    (hy : p.y = JSNum.num qy) (hsy : p.speedY = JSNum.num sy) :
    ∀ n : Nat, ∃ qx' sx' qy' sy' : ℚ,
      (GalaxyParticle.updateIter { x := none, y := none } w h dists sins n p).x = JSNum.num qx' ∧
      (GalaxyParticle.updateIter { x := none, y := none } w h dists sins n p).speedX = JSNum.num sx' ∧
      (GalaxyParticle.updateIter { x := none, y := none } w h dists sins n p).y = JSNum.num qy' ∧
      (GalaxyParticle.updateIter { x := none, y := none } w h dists sins n p).speedY = JSNum.num sy' ∧
      AxisInv w qx' sx' ∧ AxisInv h qy' sy' ∧ |sx'| = |sx| ∧ |sy'| = |sy| := by
  intro n
  induction n with
  | zero => exact ⟨qx, sx, qy, sy, hx, hsx, hy, hsy, hix, hiy, rfl, rfl⟩
  | succ m ih =>
    obtain ⟨qx', sx', qy', sy', ihx, ihsx, ihy, ihsy, ihix, ihiy, ihmx, ihmy⟩ := ih
    obtain ⟨nux, nusx, nuy, nusy⟩ := update_mouseNone
      (GalaxyParticle.updateIter { x := none, y := none } w h dists sins m p)
      w h (dists m) (sins m) qx' sx' qy' sy' ihx ihsx ihy ihsy
    obtain ⟨hinvx, hmagx⟩ := bounceAxis_inv w qx' sx' (ihmx ▸ hsxw) ihix
    obtain ⟨hinvy, hmagy⟩ := bounceAxis_inv h qy' sy' (ihmy ▸ hsyh) ihiy
    exact ⟨(bounceAxis w qx' sx').1, (bounceAxis w qx' sx').2,
      (bounceAxis h qy' sy').1, (bounceAxis h qy' sy').2,
      nux, nusx, nuy, nusy, hinvx, hinvy, hmagx.trans ihmx, hmagy.trans ihmy⟩

/-- C5: on an 800 x 600 surface with the pointer null throughout, any
particle starting in `[0,800] x [0,600]` with per-axis speeds of magnitude at
most `0.25` stays inside `[-1, 801] x [-1, 601]` after any number of update
steps (in particular 60), and `|speedX|`, `|speedY|` keep their initial
values — only the signs may flip.  Quantifying over the particle covers all
200 particles of the scenario. -/
theorem galaxy_c5_bounded_motion (dists : Nat → JSNum) (sins : Nat → ℚ)
    (qx sx qy sy : ℚ)
    (hqx0 : 0 ≤ qx) (hqx1 : qx ≤ 800) (hqy0 : 0 ≤ qy) (hqy1 : qy ≤ 600)
    (hsxb : |sx| ≤ 1/4) (hsyb : |sy| ≤ 1/4)
    (p : GalaxyParticle) (hx : p.x = JSNum.num qx) (hpsx : p.speedX = JSNum.num sx)
    (hy : p.y = JSNum.num qy) (hpsy : p.speedY = JSNum.num sy) (n : Nat) :
    ∃ qx' sx' qy' sy' : ℚ,
      (GalaxyParticle.updateIter { x := none, y := none } 800 600 dists sins n p).x
        = JSNum.num qx' ∧
      (GalaxyParticle.updateIter { x := none, y := none } 800 600 dists sins n p).speedX
        = JSNum.num sx' ∧
      (GalaxyParticle.updateIter { x := none, y := none } 800 600 dists sins n p).y
        = JSNum.num qy' ∧
      (GalaxyParticle.updateIter { x := none, y := none } 800 600 dists sins n p).speedY
        = JSNum.num sy' ∧
      -1 ≤ qx' ∧ qx' ≤ 801 ∧ -1 ≤ qy' ∧ qy' ≤ 601 ∧ |sx'| = |sx| ∧ |sy'| = |sy| := by
  obtain ⟨qx', sx', qy', sy', h1, h2, h3, h4, hinvx, hinvy, hmx, hmy⟩ :=
    c5_iter_inv 800 600 dists sins qx sx qy sy
      (le_trans hsxb (by norm_num)) (le_trans hsyb (by norm_num))
      (Or.inl ⟨hqx0, hqx1⟩) (Or.inl ⟨hqy0, hqy1⟩) p hx hpsx hy hpsy n
  obtain ⟨bx1, bx2⟩ := axisInv_bounds 800 qx' sx' (by norm_num) hinvx
  obtain ⟨by1, by2⟩ := axisInv_bounds 600 qy' sy' (by norm_num) hinvy
  rw [hmx] at bx1 bx2
  rw [hmy] at by1 by2
  refine ⟨qx', sx', qy', sy', h1, h2, h3, h4, ?_, ?_, ?_, ?_, hmx, hmy⟩ <;>
    linarith [hsxb, hsyb, bx1, bx2, by1, by2]

/-- A concrete particle of the C5 scenario: centre of the surface, speeds
`(0.25, -0.25)`. -/
def c5Particle : GalaxyParticle :=
  { x := JSNum.num 400
    y := JSNum.num 300
    radius := 2
    baseRadius := 2
    color := "#00CED1"
    speedX := JSNum.num (1/4)
    speedY := JSNum.num (-(1/4))
    pulsePhase := 0
    pulseSpeed := 1/50 }

/-- C5 witness: the bounded-motion theorem evaluated after exactly 60 steps
on the concrete particle. -/
theorem galaxy_c5_witness :
    ∃ qx' sx' qy' sy' : ℚ,
      (GalaxyParticle.updateIter { x := none, y := none } 800 600
          (fun _ => JSNum.nan) (fun _ => 0) 60 c5Particle).x = JSNum.num qx' ∧
      (GalaxyParticle.updateIter { x := none, y := none } 800 600
          (fun _ => JSNum.nan) (fun _ => 0) 60 c5Particle).speedX = JSNum.num sx' ∧
      (GalaxyParticle.updateIter { x := none, y := none } 800 600
          (fun _ => JSNum.nan) (fun _ => 0) 60 c5Particle).y = JSNum.num qy' ∧
      (GalaxyParticle.updateIter { x := none, y := none } 800 600
          (fun _ => JSNum.nan) (fun _ => 0) 60 c5Particle).speedY = JSNum.num sy' ∧
      -1 ≤ qx' ∧ qx' ≤ 801 ∧ -1 ≤ qy' ∧ qy' ≤ 601 ∧
      |sx'| = |(1/4 : ℚ)| ∧ |sy'| = |(-(1/4) : ℚ)| :=
  galaxy_c5_bounded_motion (fun _ => JSNum.nan) (fun _ => 0) 400 (1/4) 300 (-(1/4))
    (by norm_num) (by norm_num) (by norm_num) (by norm_num)
    (by rw [abs_of_nonneg (by norm_num : (0:ℚ) ≤ 1/4)])
    (by rw [abs_of_nonpos (by norm_num : (-(1/4):ℚ) ≤ 0)]; norm_num)
    c5Particle rfl rfl rfl rfl 60

/-- C7: `createParticles` (run at init and on every resize) regenerates the
whole collection: it always produces exactly `numParticles = 200` particles,
and with the dimensions non-negative and every random draw in `[0, 1)`, each
fresh particle is created at `0 ≤ x ≤ newWidth`, `0 ≤ y ≤ newHeight`. -/
theorem galaxy_c7_create_particles (w h : ℚ) (hw : 0 ≤ w) (hh : 0 ≤ h)
    (seeds : Nat → Seed) (hseeds : ∀ i, (seeds i).Valid) :
    (GalaxyBackground.createParticles w h seeds).length = GalaxyBackground.numParticles ∧
    GalaxyBackground.numParticles = 200 ∧
    ∀ p ∈ GalaxyBackground.createParticles w h seeds, ∃ qx qy : ℚ,
      p.x = JSNum.num qx ∧ p.y = JSNum.num qy ∧ 0 ≤ qx ∧ qx ≤ w ∧ 0 ≤ qy ∧ qy ≤ h := by
  refine ⟨by simp [GalaxyBackground.createParticles], rfl, ?_⟩
  intro p hp
  simp only [GalaxyBackground.createParticles, List.mem_map, List.mem_range] at hp
  obtain ⟨i, hi, rfl⟩ := hp
  obtain ⟨hrx0, hrx1, hry0, hry1, hrest⟩ := hseeds i
  refine ⟨(seeds i).rx * w, (seeds i).ry * h, rfl, rfl,
    mul_nonneg hrx0 hw, ?_, mul_nonneg hry0 hh, ?_⟩
  · calc (seeds i).rx * w ≤ 1 * w := mul_le_mul_of_nonneg_right (le_of_lt hrx1) hw
      _ = w := one_mul w
  · calc (seeds i).ry * h ≤ 1 * h := mul_le_mul_of_nonneg_right (le_of_lt hry1) hh
      _ = h := one_mul h

/-- The all-halves seed bundle used by concrete witnesses. -/
def halfSeed : Seed :=
  { rx := 1/2, ry := 1/2, rr := 1/2, rc := 1/2, rsx := 1/2, rsy := 1/2,
    phase := 1/2, rps := 1/2 }

/-- C7 witness: the creation theorem evaluated on an 800 x 600 surface with
the all-halves seed stream. -/
theorem galaxy_c7_witness :
    (GalaxyBackground.createParticles 800 600 (fun _ => halfSeed)).length
      = GalaxyBackground.numParticles ∧
    GalaxyBackground.numParticles = 200 ∧
    ∀ p ∈ GalaxyBackground.createParticles 800 600 (fun _ => halfSeed), ∃ qx qy : ℚ,
      p.x = JSNum.num qx ∧ p.y = JSNum.num qy ∧ 0 ≤ qx ∧ qx ≤ 800 ∧ 0 ≤ qy ∧ qy ≤ 600 :=
  galaxy_c7_create_particles 800 600 (by norm_num) (by norm_num) (fun _ => halfSeed)
    (fun _ => by norm_num [Seed.Valid, halfSeed])

/-- C10: the constructor draws `baseRadius = random * 3 + 1 ∈ [1, 4)` (and
starts `radius` at `baseRadius`); after every update
`radius = baseRadius + sin(pulsePhase) * 1`, so with `sin ∈ [-1, 1]` the
radius stays in `[baseRadius - 1, baseRadius + 1]`, hence non-negative
whenever `baseRadius ≥ 1`, and all three `ctx.arc` radii of the draw pass
(`3·radius`, `radius`, `0.3·radius`) are non-negative. -/
theorem galaxy_c10_radius_nonneg (w h : ℚ) (s : Seed) (hs : s.Valid)
    (p : GalaxyParticle) (mouse : Mouse) (cw ch : ℚ) (dist : JSNum) (sinVal : ℚ)
    (hbase : 1 ≤ p.baseRadius) (hsin1 : -1 ≤ sinVal) (hsin2 : sinVal ≤ 1) :
    (1 ≤ (GalaxyParticle.create w h s).baseRadius ∧
      (GalaxyParticle.create w h s).baseRadius < 4 ∧
      (GalaxyParticle.create w h s).radius = (GalaxyParticle.create w h s).baseRadius) ∧
    ((p.update mouse cw ch dist sinVal).radius = p.baseRadius + sinVal * 1) ∧
    (p.baseRadius - 1 ≤ (p.update mouse cw ch dist sinVal).radius ∧
      (p.update mouse cw ch dist sinVal).radius ≤ p.baseRadius + 1) ∧
    (0 ≤ (p.update mouse cw ch dist sinVal).radius) ∧
    (∀ r ∈ (p.update mouse cw ch dist sinVal).draw, 0 ≤ r) := by
  obtain ⟨hrx0, hrx1, hry0, hry1, hrr0, hrr1, hrest⟩ := hs
  have hrad : (p.update mouse cw ch dist sinVal).radius = p.baseRadius + sinVal * 1 := rfl
  have hr0 : 0 ≤ (p.update mouse cw ch dist sinVal).radius := by
    rw [hrad]; linarith
  refine ⟨⟨?_, ?_, rfl⟩, hrad, ⟨?_, ?_⟩, hr0, ?_⟩
  · show 1 ≤ s.rr * 3 + 1
    nlinarith
  · show s.rr * 3 + 1 < 4
    nlinarith
  · rw [hrad]; linarith
  · rw [hrad]; linarith
  · intro r hr
    simp only [GalaxyParticle.draw, List.mem_cons, List.not_mem_nil, or_false] at hr
    rcases hr with rfl | rfl | rfl
    · linarith
    · exact hr0
    · linarith

/-- C10 witness: the radius theorem evaluated on the all-halves seed, a
freshly created particle and `sin = 1/2`. -/
theorem galaxy_c10_witness :
    (1 ≤ (GalaxyParticle.create 800 600 halfSeed).baseRadius ∧
      (GalaxyParticle.create 800 600 halfSeed).baseRadius < 4 ∧
      (GalaxyParticle.create 800 600 halfSeed).radius
        = (GalaxyParticle.create 800 600 halfSeed).baseRadius) ∧
    (((GalaxyParticle.create 800 600 halfSeed).update { x := none, y := none } 800 600
        JSNum.nan (1/2)).radius = (GalaxyParticle.create 800 600 halfSeed).baseRadius + 1/2 * 1) ∧
    ((GalaxyParticle.create 800 600 halfSeed).baseRadius - 1
        ≤ ((GalaxyParticle.create 800 600 halfSeed).update { x := none, y := none } 800 600
            JSNum.nan (1/2)).radius ∧
      ((GalaxyParticle.create 800 600 halfSeed).update { x := none, y := none } 800 600
          JSNum.nan (1/2)).radius ≤ (GalaxyParticle.create 800 600 halfSeed).baseRadius + 1) ∧
    (0 ≤ ((GalaxyParticle.create 800 600 halfSeed).update { x := none, y := none } 800 600
        JSNum.nan (1/2)).radius) ∧
    (∀ r ∈ ((GalaxyParticle.create 800 600 halfSeed).update { x := none, y := none } 800 600
        JSNum.nan (1/2)).draw, 0 ≤ r) :=
  galaxy_c10_radius_nonneg 800 600 halfSeed (by norm_num [Seed.Valid, halfSeed])
    (GalaxyParticle.create 800 600 halfSeed) { x := none, y := none } 800 600 JSNum.nan (1/2)
    (by norm_num [GalaxyParticle.create, halfSeed]) (by norm_num) (by norm_num)

/-- `sqrtF` behaves as the exact non-negative square root on every squared
distance of a pair from `ps` (this also forces those squared distances to be
numeric). -/
def SqrtOn (sqrtF : JSNum → JSNum) (ps : List GalaxyParticle) : Prop :=
  ∀ p ∈ ps, ∀ q ∈ ps, ∃ r : ℚ, 0 ≤ r ∧ JSNum.num (r * r) = squaredDist p q ∧
    sqrtF (squaredDist p q) = JSNum.num r

/-- C6: in the connection pass, for every pair `i < j` a line is stroked iff
the Euclidean distance `d` of the two particles (the non-negative root of
`dx² + dy²`) satisfies `d < 150`, and its opacity is
`(1 - d/150) * 0.3`; this opacity is strictly decreasing in the distance,
equals exactly `0.3` at distance `0` and exactly `0` at distance `150`. -/
theorem galaxy_c6_connections (ps : List GalaxyParticle) (sqrtF : JSNum → JSNum)
    (hsq : SqrtOn sqrtF ps) :
    (∀ i j : Nat, ∀ o : JSNum, (i, j, o) ∈ GalaxyBackground.drawConnections ps sqrtF ↔
      (i < j ∧ j < ps.length ∧ ∃ d : ℚ, 0 ≤ d ∧
        JSNum.num (d * d) = squaredDist (ps.getD i default) (ps.getD j default) ∧
        sqrtF (squaredDist (ps.getD i default) (ps.getD j default)) = JSNum.num d ∧
        d < 150 ∧ o = JSNum.num (connectionOpacity d))) ∧
    (∀ d1 d2 : ℚ, d1 < d2 → connectionOpacity d2 < connectionOpacity d1) ∧
    connectionOpacity 0 = 3/10 ∧
    connectionOpacity 150 = 0 := by
  have hop : ∀ d : ℚ,
      ((JSNum.num 1).sub ((JSNum.num d).div (JSNum.num 150))).mul (JSNum.num (3/10))
        = JSNum.num (connectionOpacity d) := by
    intro d
    rw [JSNum.div_num, if_neg (by norm_num : (150:ℚ) ≠ 0)]
    rfl
  refine ⟨?_, ?_, by norm_num [connectionOpacity], by norm_num [connectionOpacity]⟩
  · intro i j o
    constructor
    · intro hmem
      simp only [GalaxyBackground.drawConnections, List.mem_flatMap, List.mem_filterMap,
        List.mem_filter, List.mem_range, decide_eq_true_eq] at hmem
      obtain ⟨a, ha, b, ⟨hb, hab⟩, hsome⟩ := hmem
      have hpa : ps.getD a default ∈ ps := by
        rw [List.getD_eq_getElem ps default ha]
        exact List.getElem_mem ha
      have hpb : ps.getD b default ∈ ps := by
        rw [List.getD_eq_getElem ps default hb]
        exact List.getElem_mem hb
      obtain ⟨r, hr0, hrsq, hrval⟩ := hsq (ps.getD a default) hpa (ps.getD b default) hpb
      rw [hrval] at hsome
      by_cases hlt : r < 150
      · rw [if_pos (by simpa using hlt)] at hsome
        obtain ⟨rfl, rfl, rfl⟩ : a = i ∧ b = j ∧
            ((JSNum.num 1).sub ((JSNum.num r).div (JSNum.num 150))).mul (JSNum.num (3/10)) = o := by
          have := Option.some.inj hsome
          exact ⟨congrArg Prod.fst this, congrArg Prod.fst (congrArg Prod.snd this),
            congrArg Prod.snd (congrArg Prod.snd this)⟩
        exact ⟨hab, hb, r, hr0, hrsq, hrval, hlt, (hop r).symm ▸ rfl⟩
      · rw [if_neg (by simpa using hlt)] at hsome
        simp at hsome
    · rintro ⟨hij, hj, d, hd0, hdsq, hdval, hd150, rfl⟩
      simp only [GalaxyBackground.drawConnections, List.mem_flatMap, List.mem_filterMap,
        List.mem_filter, List.mem_range, decide_eq_true_eq]
      refine ⟨i, lt_trans hij hj, j, ⟨hj, hij⟩, ?_⟩
      rw [hdval, if_pos (by simpa using hd150), hop d]
  · intro d1 d2 hlt
    unfold connectionOpacity
    nlinarith

/-- First particle of the C6 witness pair, at the origin. -/
def c6P0 : GalaxyParticle :=
  { x := JSNum.num 0, y := JSNum.num 0, radius := 2, baseRadius := 2, color := "#9370DB",
    speedX := JSNum.num 0, speedY := JSNum.num 0, pulsePhase := 0, pulseSpeed := 1/50 }

/-- Second particle of the C6 witness pair, at `(30, 40)` — Euclidean
distance exactly `50` from `c6P0`. -/
def c6P1 : GalaxyParticle :=
  { x := JSNum.num 30, y := JSNum.num 40, radius := 2, baseRadius := 2, color := "#32CD32",
    speedX := JSNum.num 0, speedY := JSNum.num 0, pulsePhase := 0, pulseSpeed := 1/50 }

/-- The C6 witness collection. -/
def c6Particles : List GalaxyParticle := [c6P0, c6P1]

/-- An exact square-root oracle for the squared distances arising from
`c6Particles` (`0 ↦ 0`, `2500 ↦ 50`). -/
def c6Sqrt : JSNum → JSNum := fun v =>
  if v = JSNum.num 0 then JSNum.num 0
  else if v = JSNum.num 2500 then JSNum.num 50
  else JSNum.nan

/-- `c6Sqrt` is a correct square root on every pair from `c6Particles`. -/
theorem c6Sqrt_on : SqrtOn c6Sqrt c6Particles := by
  intro p hp q hq
  simp only [c6Particles, List.mem_cons, List.not_mem_nil, or_false] at hp hq
  rcases hp with rfl | rfl <;> rcases hq with rfl | rfl
  · exact ⟨0, le_refl 0, by norm_num [squaredDist, c6P0], by norm_num [c6Sqrt, squaredDist, c6P0]⟩
  · exact ⟨50, by norm_num, by norm_num [squaredDist, c6P0, c6P1],
      by norm_num [c6Sqrt, squaredDist, c6P0, c6P1]⟩
  · exact ⟨50, by norm_num, by norm_num [squaredDist, c6P0, c6P1],
      by norm_num [c6Sqrt, squaredDist, c6P0, c6P1]⟩
  · exact ⟨0, le_refl 0, by norm_num [squaredDist, c6P1], by norm_num [c6Sqrt, squaredDist, c6P1]⟩

/-- C6 witness: the connection-pass theorem evaluated on the concrete
two-particle collection at distance `50`. -/
theorem galaxy_c6_witness :
    (∀ i j : Nat, ∀ o : JSNum,
      (i, j, o) ∈ GalaxyBackground.drawConnections c6Particles c6Sqrt ↔
      (i < j ∧ j < c6Particles.length ∧ ∃ d : ℚ, 0 ≤ d ∧
        JSNum.num (d * d) = squaredDist (c6Particles.getD i default) (c6Particles.getD j default) ∧
        c6Sqrt (squaredDist (c6Particles.getD i default) (c6Particles.getD j default))
          = JSNum.num d ∧
        d < 150 ∧ o = JSNum.num (connectionOpacity d))) ∧
    (∀ d1 d2 : ℚ, d1 < d2 → connectionOpacity d2 < connectionOpacity d1) ∧
    connectionOpacity 0 = 3/10 ∧
    connectionOpacity 150 = 0 :=
  galaxy_c6_connections c6Particles c6Sqrt c6Sqrt_on
